import Mathlib

/-!
Verification of the per-connection streaming transcription session of
`src/main.py` (`websocket_transcribe`), as a shallow embedding.

The handler is modelled as a deterministic small-step machine over a
`Config`.  The external pieces are modelled at their interfaces:

* the JSON library: a text frame carries the *result* of `json.loads`
  (`Option Json`; `none` means `json.JSONDecodeError`).  JSON numbers are
  modelled as integers (the claims only exercise integer payloads).
* the Vosk recognizer (external engine): each audio frame carries the
  engine's reaction to that chunk (`FeedOutcome`), and the whole session
  carries the outcome of the single `FinalResult` flush (`FlushOutcome`).
* the transport: a send is delivered exactly when the connection is still
  alive; once a `websocket.disconnect` message has been received, a send
  raises (starlette/uvicorn behaviour).  A raised send inside a
  `try/except: pass` is swallowed; a raised send outside one escapes the
  handler (`Phase.crashed`).
-/

/-- JSON values, as produced by `json.loads`.  Numbers are modelled as
integers; the object keeps its fields as an association list. -/
inductive Json where
  | nullVal : Json
  | boolVal : Bool → Json
  | intVal : Int → Json
  | strVal : String → Json
  | arrVal : List Json → Json
  | objVal : List (String × Json) → Json

/-- Field access on a JSON object association list (Python `dict.get`):
first binding wins; `json.loads` produces distinct keys. -/
def lookupField : List (String × Json) → String → Option Json
  | [], _ => none
  | (k, v) :: rest, key => if k = key then some v else lookupField rest key

/-- Value of a nonempty all-digit character list. -/
def digitsVal (cs : List Char) : Option Nat :=
  if cs = [] then none
  else if cs.all Char.isDigit then
    some (cs.foldl (fun acc c => acc * 10 + (c.toNat - 48)) 0)
  else none

/-- ASCII whitespace, as stripped by Python `int()` around a literal. -/
def isSpaceChar (ch : Char) : Bool :=
  ch = ' ' || ch = '\t' || ch = '\n' || ch = '\r'

/-- Strip leading and trailing whitespace from a character list. -/
def trimChars (cs : List Char) : List Char :=
  ((cs.dropWhile isSpaceChar).reverse.dropWhile isSpaceChar).reverse

/-- Python `int(s)` on a string: optional surrounding whitespace, optional
sign, decimal digits; anything else raises (`none`).  Underscore
separators and non-ASCII digits are not modelled. -/
def pyIntOfStr (s : String) : Option Int :=
  match trimChars s.data with
  | '-' :: rest => (digitsVal rest).map fun n => -(n : Int)
  | '+' :: rest => (digitsVal rest).map fun n => (n : Int)
  | l => (digitsVal l).map fun n => (n : Int)

/-- Python `int(x)` on a JSON value: integers pass through, booleans
coerce to 0/1, numeric strings parse; `None`, lists and dicts raise
(`none` models the raised `TypeError`/`ValueError`). -/
def pyToInt : Json → Option Int
  | Json.intVal n => some n
  | Json.boolVal b => some (if b then 1 else 0)
  | Json.strVal s => pyIntOfStr s
  | _ => none

/-- Result of `json.loads(recognizer.Result())` / `FinalResult()`:
`text` is `result.get("text")` (absent key gives `none`), `confidence`
is passed through opaquely. -/
structure RecResult where
  text : Option String
  confidence : Option Json

/-- What the engine does with one audio chunk (`recognizer.AcceptWaveform`
plus the follow-up query in `src/main.py` lines 75-110). -/
inductive FeedOutcome where
  /-- `AcceptWaveform` returned true; `Result()` parsed to `r`. -/
  | finalStep : RecResult → FeedOutcome
  /-- `AcceptWaveform` returned false; `PartialResult()` parsed and its
  text field (`.get`) gave this optional string. -/
  | interim : Option String → FeedOutcome
  /-- the feed call raised an exception with this message. -/
  | raised : String → FeedOutcome

/-- Outcome of the single `recognizer.FinalResult()` flush call. -/
inductive FlushOutcome where
  | ok : RecResult → FlushOutcome
  | raised : String → FlushOutcome

/-- One inbound transport message, as returned by `websocket.receive()`:
a disconnect notice, a text frame carrying its JSON parse result, an
audio (bytes) frame carrying the engine's reaction, or a frame with
neither text nor bytes payload. -/
inductive Message where
  | disconnect : Message
  | textMsg : Option Json → Message
  | audio : FeedOutcome → Message
  | other : Message

/-- One outbound event delivered to the client (`websocket.send_json`).
`interimEv` is the wire event with `"type": "partial"`. -/
inductive Event where
  | segment : String → Option Json → Json → Json → Event
  | interimEv : String → Json → Json → Event
  | errorEv : String → Event

/-- Position of the handler coroutine in `websocket_transcribe`. -/
inductive Phase where
  /-- blocked at `receive_text()` (line 43), handshake not yet done. -/
  | awaitingInit : Phase
  /-- inside the `while True` receive loop (line 52). -/
  | streaming : Phase
  /-- inside `except Exception` (line 113), about to send the error event. -/
  | excHandling : String → Phase
  /-- entering the `finally` block (line 118), flush not yet done. -/
  | finalizing : Phase
  /-- at the guarded `websocket.close()` (line 132). -/
  | closing : Phase
  /-- the handler returned normally. -/
  | closedDone : Phase
  /-- an exception escaped the handler (unguarded code in `finally`). -/
  | crashed : String → Phase

/-- The whole session state: coroutine position, the per-session local
variables of `websocket_transcribe`, the transport, the unconsumed input
and the observables.  `recCreated` is a ghost flag recording that the
recognizer was ever constructed; `flushCount` and `closeAttempts` count
calls to `FinalResult()` and `websocket.close()`. -/
structure Config where
  phase : Phase
  recognizer : Option Int
  recCreated : Bool
  participant : Json
  room : Json
  alive : Bool
  msgs : List Message
  events : List Event
  flushCount : Nat
  closeAttempts : Nat
  flushPlan : FlushOutcome

/-- Initial configuration on connection accept (lines 36-40): defaults
`"unknown"`, no recognizer, live transport, the inbound frames still to
arrive, and the engine's flush script. -/
def initConfig (msgs : List Message) (fp : FlushOutcome) : Config :=
  { phase := Phase.awaitingInit
    recognizer := none
    recCreated := false
    participant := Json.strVal "unknown"
    room := Json.strVal "unknown"
    alive := true
    msgs := msgs
    events := []
    flushCount := 0
    closeAttempts := 0
    flushPlan := fp }

/-- Is `data.get("type")` the string `"stop"` (line 64)? -/
def isStopVal : Option Json → Bool
  | some (Json.strVal s) => s = "stop"
  | _ => false

/-- Does a parsed control payload request stop?  True exactly for JSON
objects whose `type` field is the string `"stop"`. -/
def isStopJson : Json → Bool
  | Json.objVal fields => isStopVal (lookupField fields "type")
  | _ => false

/-- Truthiness of an optional string under Python `if text:`. -/
def truthy : Option String → Bool
  | some s => s ≠ ""
  | none => false

/-- The handshake (lines 43-50).  `receive_text` raises
`WebSocketDisconnect` on a disconnect notice (caught at line 111, so the
coroutine goes straight to the `finally` block with a dead transport);
a non-text frame makes `receive_text` raise (no text payload); a parse
failure raises `JSONDecodeError`; `.get` on a non-dict raises
`AttributeError`; `int(...)` on a non-coercible `sampleRate` raises.
All of those are caught by the generic `except Exception` (line 113).
On success the recognizer is created with the read sample rate and the
loop is entered. -/
def handshakeStep (c : Config) (m : Message) (rest : List Message) : Config :=
  match m with
  | Message.disconnect =>
      { c with phase := Phase.finalizing, alive := false, msgs := rest }
  | Message.audio _ =>
      { c with phase := Phase.excHandling "KeyError: text", msgs := rest }
  | Message.other =>
      { c with phase := Phase.excHandling "KeyError: text", msgs := rest }
  | Message.textMsg none =>
      { c with phase := Phase.excHandling "json decode error", msgs := rest }
  | Message.textMsg (some j) =>
      match j with
      | Json.objVal fields =>
          -- line 45: int(init_payload.get("sampleRate", SAMPLE_RATE_DEFAULT))
          match pyToInt ((lookupField fields "sampleRate").getD (Json.intVal 16000)) with
          | none =>
              { c with phase := Phase.excHandling "int conversion error", msgs := rest }
          | some sr =>
              { c with phase := Phase.streaming
                       recognizer := some sr
                       recCreated := true
                       participant :=
                         (lookupField fields "participantIdentity").getD (Json.strVal "unknown")
                       room := (lookupField fields "roomId").getD (Json.strVal "unknown")
                       msgs := rest }
      | _ =>
          { c with phase := Phase.excHandling "AttributeError: get", msgs := rest }

/-- One iteration of the streaming loop (lines 52-110) on the inbound
message `m`.  A disconnect notice breaks the loop with a dead transport;
a text frame is parsed (failure: silently dropped, line 62), a `stop`
object breaks the loop, any other object is dropped, a non-object JSON
makes `data.get` raise `AttributeError`; a frame without bytes is
dropped; an audio frame is fed to the engine and at most one
partial/segment event is sent (the transport is live inside the loop, so
these sends succeed). -/
def streamStep (c : Config) (m : Message) (rest : List Message) : Config :=
  match m with
  | Message.disconnect =>
      { c with phase := Phase.finalizing, alive := false, msgs := rest }
  | Message.textMsg none =>
      { c with msgs := rest }
  | Message.textMsg (some j) =>
      match j with
      | Json.objVal fields =>
          if isStopVal (lookupField fields "type") then
            { c with phase := Phase.finalizing, msgs := rest }
          else
            { c with msgs := rest }
      | _ =>
          { c with phase := Phase.excHandling "AttributeError: get", msgs := rest }
  | Message.other =>
      { c with msgs := rest }
  | Message.audio out =>
      match out with
      | FeedOutcome.raised msg =>
          { c with phase := Phase.excHandling msg, msgs := rest }
      | FeedOutcome.finalStep r =>
          if truthy r.text then
            { c with msgs := rest
                     events := c.events ++
                       [Event.segment (r.text.getD "") r.confidence c.participant c.room] }
          else
            { c with msgs := rest }
      | FeedOutcome.interim p =>
          if truthy p then
            { c with msgs := rest
                     events := c.events ++ [Event.interimEv (p.getD "") c.participant c.room] }
          else
            { c with msgs := rest }

/-- The `finally` block up to the close (lines 118-131).  Without a
recognizer the flush is skipped.  With one, `FinalResult()` runs once:
if it raises, the exception propagates out of `finally` and the close is
never attempted; if it returns and the text is truthy, the *unguarded*
`send_json` at line 123 delivers the segment on a live transport but
raises (and escapes the handler) on a dead one.  The recognizer handle is
dropped here — the code never touches it afterwards, Python frees it when
the handler leaves. -/
def finalizeStep (c : Config) : Config :=
  match c.recognizer with
  | none => { c with phase := Phase.closing }
  | some _ =>
      match c.flushPlan with
      | FlushOutcome.raised msg =>
          { c with phase := Phase.crashed msg
                   recognizer := none
                   flushCount := c.flushCount + 1 }
      | FlushOutcome.ok r =>
          if truthy r.text then
            if c.alive then
              { c with phase := Phase.closing
                       recognizer := none
                       flushCount := c.flushCount + 1
                       events := c.events ++
                         [Event.segment (r.text.getD "") r.confidence c.participant c.room] }
            else
              { c with phase := Phase.crashed "send on closed transport"
                       recognizer := none
                       flushCount := c.flushCount + 1 }
          else
            { c with phase := Phase.closing
                     recognizer := none
                     flushCount := c.flushCount + 1 }

/-- One step of the handler coroutine.  Configurations where the code is
blocked forever (`receive` with no further input) and terminal
configurations are fixpoints. -/
def step (c : Config) : Config :=
  match c.phase with
  | Phase.awaitingInit =>
      match c.msgs with
      | [] => c
      | m :: rest => handshakeStep c m rest
  | Phase.streaming =>
      match c.msgs with
      | [] => c
      | m :: rest => streamStep c m rest
  | Phase.excHandling msg =>
      -- lines 114-117: best-effort error event, failure swallowed
      if c.alive then
        { c with phase := Phase.finalizing, events := c.events ++ [Event.errorEv msg] }
      else
        { c with phase := Phase.finalizing }
  | Phase.finalizing => finalizeStep c
  | Phase.closing =>
      -- lines 132-135: close attempt, any failure swallowed
      { c with phase := Phase.closedDone, closeAttempts := c.closeAttempts + 1 }
  | Phase.closedDone => c
  | Phase.crashed _ => c

/-- Iterated stepping. -/
def stepN : Nat → Config → Config
  | 0, c => c
  | n + 1, c => stepN n (step c)

/-- A configuration the handler can actually be in: reachable from some
initial configuration by stepping. -/
def Reachable (c : Config) : Prop :=
  ∃ msgs fp n, stepN n (initConfig msgs fp) = c

/-- Session states of the specification (§4.2). -/
inductive SpecState where
  | awaitingInitS : SpecState
  | streamingS : SpecState
  | terminatingS : SpecState
  | closedS : SpecState

/-- Mapping of coroutine positions to the four spec states.  Terminating
is the spec state that flushes the recognizer and emits the final
segment, so cleanup positions belong to it exactly while a recognizer is
live; cleanup without a recognizer, the close attempt and the two
terminal positions are Closed. -/
def specState (c : Config) : SpecState :=
  match c.phase with
  | Phase.awaitingInit => SpecState.awaitingInitS
  | Phase.streaming => SpecState.streamingS
  | Phase.excHandling _ =>
      if c.recognizer.isSome then SpecState.terminatingS else SpecState.closedS
  | Phase.finalizing =>
      if c.recognizer.isSome then SpecState.terminatingS else SpecState.closedS
  | Phase.closing => SpecState.closedS
  | Phase.closedDone => SpecState.closedS
  | Phase.crashed _ => SpecState.closedS

/-- Number of segment events in an event list. -/
def segCount (es : List Event) : Nat :=
  es.countP fun e => match e with | Event.segment _ _ _ _ => true | _ => false

/-- Number of error events in an event list. -/
def errCount (es : List Event) : Nat :=
  es.countP fun e => match e with | Event.errorEv _ => true | _ => false

/-- Observable outcome of a session: coroutine position, delivered
events, flush and close counts. -/
def obs (c : Config) : Phase × List Event × Nat × Nat :=
  (c.phase, c.events, c.flushCount, c.closeAttempts)

/-- An empty-object handshake frame (all fields defaulted). -/
def hsEmpty : Message := Message.textMsg (some (Json.objVal []))

/-- A `stop` control frame after parsing. -/
def stopFrame : Message := Message.textMsg (some (Json.objVal [("type", Json.strVal "stop")]))

/-- A flush result with no text (Python `final.get("text")` gives `None`). -/
def flushNone : FlushOutcome := FlushOutcome.ok ⟨none, none⟩

@[simp] theorem errCount_nil : errCount [] = 0 := rfl

@[simp] theorem segCount_nil : segCount [] = 0 := rfl

@[simp] theorem errCount_append (es fs : List Event) :
    errCount (es ++ fs) = errCount es + errCount fs := by
  simp [errCount, List.countP_append]

@[simp] theorem segCount_append (es fs : List Event) :
    segCount (es ++ fs) = segCount es + segCount fs := by
  simp [segCount, List.countP_append]

@[simp] theorem errCount_segment (t : String) (cf : Option Json) (p r : Json) :
    errCount [Event.segment t cf p r] = 0 := rfl

@[simp] theorem errCount_interim (t : String) (p r : Json) :
    errCount [Event.interimEv t p r] = 0 := rfl

@[simp] theorem errCount_error (s : String) : errCount [Event.errorEv s] = 1 := rfl

@[simp] theorem segCount_segment (t : String) (cf : Option Json) (p r : Json) :
    segCount [Event.segment t cf p r] = 1 := rfl

@[simp] theorem segCount_interim (t : String) (p r : Json) :
    segCount [Event.interimEv t p r] = 0 := rfl

@[simp] theorem segCount_error (s : String) : segCount [Event.errorEv s] = 0 := rfl

/-- Inductive invariant of the session machine, preserved by `step` and
true of every initial configuration. -/
structure SessInv (c : Config) : Prop where
  awaitRec : c.phase = Phase.awaitingInit →
    c.recognizer = none ∧ c.recCreated = false ∧ c.events = [] ∧
      c.flushCount = 0 ∧ c.closeAttempts = 0 ∧ c.alive = true
  streamRec : c.phase = Phase.streaming → c.recognizer.isSome = true ∧ c.alive = true
  recCre : c.recognizer.isSome = true → c.recCreated = true
  ghostNone : c.recCreated = false →
    c.recognizer = none ∧ c.flushCount = 0 ∧ segCount c.events = 0
  closedRec :
    c.phase = Phase.closing ∨ c.phase = Phase.closedDone ∨
      (∃ m, c.phase = Phase.crashed m) → c.recognizer = none
  closeLe : c.closeAttempts ≤ 1
  closeZero : c.phase ≠ Phase.closedDone → c.closeAttempts = 0
  flushLe : c.flushCount ≤ 1
  flushZero :
    c.phase = Phase.awaitingInit ∨ c.phase = Phase.streaming ∨
      (∃ m, c.phase = Phase.excHandling m) ∨ c.phase = Phase.finalizing →
        c.flushCount = 0
  errLe : errCount c.events ≤ 1
  errZero :
    c.phase = Phase.awaitingInit ∨ c.phase = Phase.streaming ∨
      (∃ m, c.phase = Phase.excHandling m) →
        errCount c.events = 0

theorem inv_of_streaming {c : Config} (hp : c.phase = Phase.streaming)
    (h1 : c.recognizer.isSome = true) (h2 : c.alive = true)
    (h3 : c.recCreated = true) (h4 : c.flushCount = 0)
    (h5 : c.closeAttempts = 0) (h6 : errCount c.events = 0) : SessInv c := by
  refine ⟨?_, ?_, ?_, ?_, ?_, ?_, ?_, ?_, ?_, ?_, ?_⟩
  · intro hq; rw [hp] at hq; exact Phase.noConfusion hq
  · intro _; exact ⟨h1, h2⟩
  · intro _; exact h3
  · intro hq; rw [h3] at hq; exact Bool.noConfusion hq
  · intro hq; rcases hq with hq | hq | ⟨m, hq⟩ <;> rw [hp] at hq <;> exact Phase.noConfusion hq
  · omega
  · intro _; exact h5
  · omega
  · intro _; exact h4
  · omega
  · intro _; exact h6

theorem inv_of_excHandling {c : Config} {s : String} (hp : c.phase = Phase.excHandling s)
    (h4 : c.flushCount = 0) (h5 : c.closeAttempts = 0) (h6 : errCount c.events = 0)
    (h7 : c.recognizer.isSome = true → c.recCreated = true)
    (h8 : c.recCreated = false → c.recognizer = none ∧ segCount c.events = 0) : SessInv c := by
  refine ⟨?_, ?_, ?_, ?_, ?_, ?_, ?_, ?_, ?_, ?_, ?_⟩
  · intro hq; rw [hp] at hq; exact Phase.noConfusion hq
  · intro hq; rw [hp] at hq; exact Phase.noConfusion hq
  · exact h7
  · intro hq; exact ⟨(h8 hq).1, h4, (h8 hq).2⟩
  · intro hq; rcases hq with hq | hq | ⟨m, hq⟩ <;> rw [hp] at hq <;> exact Phase.noConfusion hq
  · omega
  · intro _; exact h5
  · omega
  · intro _; exact h4
  · omega
  · intro _; exact h6

theorem inv_of_finalizing {c : Config} (hp : c.phase = Phase.finalizing)
    (h4 : c.flushCount = 0) (h5 : c.closeAttempts = 0) (h6 : errCount c.events ≤ 1)
    (h7 : c.recognizer.isSome = true → c.recCreated = true)
    (h8 : c.recCreated = false → c.recognizer = none ∧ segCount c.events = 0) : SessInv c := by
  refine ⟨?_, ?_, ?_, ?_, ?_, ?_, ?_, ?_, ?_, ?_, ?_⟩
  · intro hq; rw [hp] at hq; exact Phase.noConfusion hq
  · intro hq; rw [hp] at hq; exact Phase.noConfusion hq
  · exact h7
  · intro hq; exact ⟨(h8 hq).1, h4, (h8 hq).2⟩
  · intro hq; rcases hq with hq | hq | ⟨m, hq⟩ <;> rw [hp] at hq <;> exact Phase.noConfusion hq
  · omega
  · intro _; exact h5
  · omega
  · intro _; exact h4
  · exact h6
  · intro hq; rcases hq with hq | hq | ⟨m, hq⟩ <;> rw [hp] at hq <;> exact Phase.noConfusion hq

theorem inv_of_closing {c : Config} (hp : c.phase = Phase.closing)
    (h1 : c.recognizer = none) (h5 : c.closeAttempts = 0) (h4 : c.flushCount ≤ 1)
    (h6 : errCount c.events ≤ 1)
    (h8 : c.recCreated = false → c.flushCount = 0 ∧ segCount c.events = 0) : SessInv c := by
  refine ⟨?_, ?_, ?_, ?_, ?_, ?_, ?_, ?_, ?_, ?_, ?_⟩
  · intro hq; rw [hp] at hq; exact Phase.noConfusion hq
  · intro hq; rw [hp] at hq; exact Phase.noConfusion hq
  · intro hq; rw [h1] at hq; exact Bool.noConfusion hq
  · intro hq; exact ⟨h1, (h8 hq).1, (h8 hq).2⟩
  · intro _; exact h1
  · omega
  · intro _; exact h5
  · exact h4
  · intro hq; rcases hq with hq | hq | ⟨m, hq⟩ | hq <;> rw [hp] at hq <;> exact Phase.noConfusion hq
  · exact h6
  · intro hq; rcases hq with hq | hq | ⟨m, hq⟩ <;> rw [hp] at hq <;> exact Phase.noConfusion hq

theorem inv_of_closedDone {c : Config} (hp : c.phase = Phase.closedDone)
    (h1 : c.recognizer = none) (h5 : c.closeAttempts ≤ 1) (h4 : c.flushCount ≤ 1)
    (h6 : errCount c.events ≤ 1)
    (h8 : c.recCreated = false → c.flushCount = 0 ∧ segCount c.events = 0) : SessInv c := by
  refine ⟨?_, ?_, ?_, ?_, ?_, ?_, ?_, ?_, ?_, ?_, ?_⟩
  · intro hq; rw [hp] at hq; exact Phase.noConfusion hq
  · intro hq; rw [hp] at hq; exact Phase.noConfusion hq
  · intro hq; rw [h1] at hq; exact Bool.noConfusion hq
  · intro hq; exact ⟨h1, (h8 hq).1, (h8 hq).2⟩
  · intro _; exact h1
  · exact h5
  · intro hq; exact absurd hp hq
  · exact h4
  · intro hq; rcases hq with hq | hq | ⟨m, hq⟩ | hq <;> rw [hp] at hq <;> exact Phase.noConfusion hq
  · exact h6
  · intro hq; rcases hq with hq | hq | ⟨m, hq⟩ <;> rw [hp] at hq <;> exact Phase.noConfusion hq

theorem inv_of_crashed {c : Config} {s : String} (hp : c.phase = Phase.crashed s)
    (h1 : c.recognizer = none) (h5 : c.closeAttempts = 0) (h4 : c.flushCount ≤ 1)
    (h6 : errCount c.events ≤ 1)
    (h8 : c.recCreated = false → c.flushCount = 0 ∧ segCount c.events = 0) : SessInv c := by
  refine ⟨?_, ?_, ?_, ?_, ?_, ?_, ?_, ?_, ?_, ?_, ?_⟩
  · intro hq; rw [hp] at hq; exact Phase.noConfusion hq
  · intro hq; rw [hp] at hq; exact Phase.noConfusion hq
  · intro hq; rw [h1] at hq; exact Bool.noConfusion hq
  · intro hq; exact ⟨h1, (h8 hq).1, (h8 hq).2⟩
  · intro _; exact h1
  · omega
  · intro _; exact h5
  · exact h4
  · intro hq; rcases hq with hq | hq | ⟨m, hq⟩ | hq <;> rw [hp] at hq <;> exact Phase.noConfusion hq
  · exact h6
  · intro hq; rcases hq with hq | hq | ⟨m, hq⟩ <;> rw [hp] at hq <;> exact Phase.noConfusion hq

theorem inv_init (msgs : List Message) (fp : FlushOutcome) : SessInv (initConfig msgs fp) := by
  refine ⟨?_, ?_, ?_, ?_, ?_, ?_, ?_, ?_, ?_, ?_, ?_⟩
  · intro _; exact ⟨rfl, rfl, rfl, rfl, rfl, rfl⟩
  · intro hq; exact Phase.noConfusion hq
  · intro hq; exact Bool.noConfusion hq
  · intro _; exact ⟨rfl, rfl, rfl⟩
  · intro hq; rcases hq with hq | hq | ⟨m, hq⟩ <;> exact Phase.noConfusion hq
  · exact Nat.zero_le 1
  · intro _; exact rfl
  · exact Nat.zero_le 1
  · intro _; exact rfl
  · exact Nat.zero_le 1
  · intro _; exact rfl

theorem sessInv_step {c : Config} (h : SessInv c) : SessInv (step c) := by
  obtain ⟨phase, rec, recC, part, room, alive, msgs, events, fc, ca, fp⟩ := c
  cases phase with
  | awaitingInit =>
    obtain ⟨hrec, hrecC, hev, hfc, hca, halive⟩ := h.awaitRec rfl
    subst hrec hrecC hev hfc hca halive
    cases msgs with
    | nil => exact h
    | cons m rest =>
      cases m with
      | disconnect =>
        exact inv_of_finalizing rfl rfl rfl (Nat.zero_le 1)
          (fun hq => Bool.noConfusion hq) (fun _ => ⟨rfl, rfl⟩)
      | audio out =>
        exact inv_of_excHandling rfl rfl rfl rfl
          (fun hq => Bool.noConfusion hq) (fun _ => ⟨rfl, rfl⟩)
      | other =>
        exact inv_of_excHandling rfl rfl rfl rfl
          (fun hq => Bool.noConfusion hq) (fun _ => ⟨rfl, rfl⟩)
      | textMsg o =>
        cases o with
        | none =>
          exact inv_of_excHandling rfl rfl rfl rfl
            (fun hq => Bool.noConfusion hq) (fun _ => ⟨rfl, rfl⟩)
        | some j =>
          cases j with
          | objVal fields =>
            simp only [step, handshakeStep]
            cases hi : pyToInt ((lookupField fields "sampleRate").getD (Json.intVal 16000)) with
            | none =>
              exact inv_of_excHandling rfl rfl rfl rfl
                (fun hq => Bool.noConfusion hq) (fun _ => ⟨rfl, rfl⟩)
            | some sr =>
              exact inv_of_streaming rfl rfl rfl rfl rfl rfl rfl
          | nullVal =>
            exact inv_of_excHandling rfl rfl rfl rfl
              (fun hq => Bool.noConfusion hq) (fun _ => ⟨rfl, rfl⟩)
          | boolVal b =>
            exact inv_of_excHandling rfl rfl rfl rfl
              (fun hq => Bool.noConfusion hq) (fun _ => ⟨rfl, rfl⟩)
          | intVal n =>
            exact inv_of_excHandling rfl rfl rfl rfl
              (fun hq => Bool.noConfusion hq) (fun _ => ⟨rfl, rfl⟩)
          | strVal s =>
            exact inv_of_excHandling rfl rfl rfl rfl
              (fun hq => Bool.noConfusion hq) (fun _ => ⟨rfl, rfl⟩)
          | arrVal xs =>
            exact inv_of_excHandling rfl rfl rfl rfl
              (fun hq => Bool.noConfusion hq) (fun _ => ⟨rfl, rfl⟩)
  | streaming =>
    obtain ⟨hsome, halive⟩ := h.streamRec rfl
    obtain ⟨sr, hrec⟩ := Option.isSome_iff_exists.mp hsome
    have hrecC : recC = true := h.recCre hsome
    have hfc : fc = 0 := h.flushZero (Or.inr (Or.inl rfl))
    have hca : ca = 0 := h.closeZero (fun hq => Phase.noConfusion hq)
    have herr : errCount events = 0 := h.errZero (Or.inr (Or.inl rfl))
    subst hrec hrecC hfc hca halive
    cases msgs with
    | nil => exact h
    | cons m rest =>
      cases m with
      | disconnect =>
        refine inv_of_finalizing rfl rfl rfl ?_ (fun _ => rfl) (fun hq => Bool.noConfusion hq)
        show errCount events ≤ 1
        omega
      | other =>
        exact inv_of_streaming rfl rfl rfl rfl rfl rfl herr
      | textMsg o =>
        cases o with
        | none => exact inv_of_streaming rfl rfl rfl rfl rfl rfl herr
        | some j =>
          cases j with
          | objVal fields =>
            simp only [step, streamStep]
            by_cases hstop : isStopVal (lookupField fields "type") = true
            · rw [if_pos hstop]
              refine inv_of_finalizing rfl rfl rfl ?_ (fun _ => rfl)
                (fun hq => Bool.noConfusion hq)
              show errCount events ≤ 1
              omega
            · rw [if_neg hstop]
              exact inv_of_streaming rfl rfl rfl rfl rfl rfl herr
          | nullVal =>
            exact inv_of_excHandling rfl rfl rfl herr
              (fun _ => rfl) (fun hq => Bool.noConfusion hq)
          | boolVal b =>
            exact inv_of_excHandling rfl rfl rfl herr
              (fun _ => rfl) (fun hq => Bool.noConfusion hq)
          | intVal n =>
            exact inv_of_excHandling rfl rfl rfl herr
              (fun _ => rfl) (fun hq => Bool.noConfusion hq)
          | strVal s =>
            exact inv_of_excHandling rfl rfl rfl herr
              (fun _ => rfl) (fun hq => Bool.noConfusion hq)
          | arrVal xs =>
            exact inv_of_excHandling rfl rfl rfl herr
              (fun _ => rfl) (fun hq => Bool.noConfusion hq)
      | audio out =>
        cases out with
        | raised msg =>
          exact inv_of_excHandling rfl rfl rfl herr
            (fun _ => rfl) (fun hq => Bool.noConfusion hq)
        | finalStep r =>
          simp only [step, streamStep]
          by_cases ht : truthy r.text = true
          · rw [if_pos ht]
            exact inv_of_streaming rfl rfl rfl rfl rfl rfl (by simp [herr])
          · rw [if_neg ht]
            exact inv_of_streaming rfl rfl rfl rfl rfl rfl herr
        | interim p =>
          simp only [step, streamStep]
          by_cases ht : truthy p = true
          · rw [if_pos ht]
            exact inv_of_streaming rfl rfl rfl rfl rfl rfl (by simp [herr])
          · rw [if_neg ht]
            exact inv_of_streaming rfl rfl rfl rfl rfl rfl herr
  | excHandling s =>
    have hfc : fc = 0 := h.flushZero (Or.inr (Or.inr (Or.inl ⟨s, rfl⟩)))
    have hca : ca = 0 := h.closeZero (fun hq => Phase.noConfusion hq)
    have herr : errCount events = 0 := h.errZero (Or.inr (Or.inr ⟨s, rfl⟩))
    subst hfc hca
    cases alive with
    | true =>
      refine inv_of_finalizing rfl rfl rfl ?_ h.recCre ?_
      · show errCount (events ++ [Event.errorEv s]) ≤ 1
        simp [herr]
      · intro hq
        refine ⟨(h.ghostNone hq).1, ?_⟩
        show segCount (events ++ [Event.errorEv s]) = 0
        simp [(h.ghostNone hq).2.2]
    | false =>
      refine inv_of_finalizing rfl rfl rfl ?_ h.recCre
        (fun hq => ⟨(h.ghostNone hq).1, (h.ghostNone hq).2.2⟩)
      show errCount events ≤ 1
      omega
  | finalizing =>
    have hfc : fc = 0 := h.flushZero (Or.inr (Or.inr (Or.inr rfl)))
    have hca : ca = 0 := h.closeZero (fun hq => Phase.noConfusion hq)
    subst hfc hca
    cases hrec : rec with
    | none =>
      simp only [step, finalizeStep, hrec]
      refine inv_of_closing rfl rfl rfl (Nat.zero_le 1) h.errLe ?_
      intro hq
      exact ⟨rfl, (h.ghostNone hq).2.2⟩
    | some sr =>
      subst hrec
      have hrecC : recC = true := h.recCre rfl
      subst hrecC
      cases fp with
      | raised s =>
        exact inv_of_crashed rfl rfl rfl (Nat.le_refl 1) h.errLe
          (fun hq => Bool.noConfusion hq)
      | ok r =>
        simp only [step, finalizeStep]
        by_cases ht : truthy r.text = true
        · rw [if_pos ht]
          cases alive with
          | true =>
            refine inv_of_closing rfl rfl rfl (Nat.le_refl 1) ?_
              (fun hq => Bool.noConfusion hq)
            show errCount (events ++ [Event.segment (r.text.getD "") r.confidence part room]) ≤ 1
            simpa using h.errLe
          | false =>
            exact inv_of_crashed rfl rfl rfl (Nat.le_refl 1) h.errLe
              (fun hq => Bool.noConfusion hq)
        · rw [if_neg ht]
          exact inv_of_closing rfl rfl rfl (Nat.le_refl 1) h.errLe
            (fun hq => Bool.noConfusion hq)
  | closing =>
    have hrec : rec = none := h.closedRec (Or.inl rfl)
    have hca : ca = 0 := h.closeZero (fun hq => Phase.noConfusion hq)
    subst hrec hca
    exact inv_of_closedDone rfl rfl (Nat.le_refl 1) h.flushLe h.errLe
      (fun hq => ⟨(h.ghostNone hq).2.1, (h.ghostNone hq).2.2⟩)
  | closedDone => exact h
  | crashed s => exact h

theorem sessInv_stepN : ∀ (n : Nat) (c : Config), SessInv c → SessInv (stepN n c)
  | 0, _, h => h
  | n + 1, c, h => sessInv_stepN n (step c) (sessInv_step h)

theorem sessInv_reachable {c : Config} (h : Reachable c) : SessInv c := by
  obtain ⟨msgs, fp, n, hn⟩ := h
  exact hn ▸ sessInv_stepN n (initConfig msgs fp) (inv_init msgs fp)

/-- C1: the claim says the final flushed `Segment` emission is best-effort
on every termination path — a failed send is swallowed, never escalated,
and never crashes the session handler, and on disconnect the session
proceeds to Closed.  The code contradicts this: the `send_json` at
`src/main.py` line 123 sits in the `finally` block with no `try/except`,
so on the disconnect path with non-empty flushed text the send raises,
the exception escapes the handler (crash), and `websocket.close()` is
never attempted.  This theorem evaluates the machine at that failing
input: empty handshake, then disconnect, engine flushing text `"done"`. -/
theorem c1_unguarded_final_send_escapes :
    (stepN 3 (initConfig [hsEmpty, Message.disconnect]
        (FlushOutcome.ok ⟨some "done", none⟩))).phase =
      Phase.crashed "send on closed transport" ∧
    (stepN 3 (initConfig [hsEmpty, Message.disconnect]
        (FlushOutcome.ok ⟨some "done", none⟩))).closeAttempts = 0 ∧
    (stepN 3 (initConfig [hsEmpty, Message.disconnect]
        (FlushOutcome.ok ⟨some "done", none⟩))).events = [] ∧
    step (stepN 3 (initConfig [hsEmpty, Message.disconnect]
        (FlushOutcome.ok ⟨some "done", none⟩))) =
      stepN 3 (initConfig [hsEmpty, Message.disconnect]
        (FlushOutcome.ok ⟨some "done", none⟩)) :=
  ⟨rfl, rfl, rfl, rfl⟩

/-- C9: after an `error` event the session may still emit a `Segment`
during cleanup.  Concrete execution: handshake with labels alice/r1, one
audio chunk whose feed raises `"boom"`, engine flushing text `"hello"` —
the client observes the error event followed by a segment event, and the
handler still closes normally. -/
theorem c9_error_then_segment :
    (stepN 5 (initConfig
        [Message.textMsg (some (Json.objVal
            [("participantIdentity", Json.strVal "alice"), ("roomId", Json.strVal "r1")])),
         Message.audio (FeedOutcome.raised "boom")]
        (FlushOutcome.ok ⟨some "hello", none⟩))).events =
      [Event.errorEv "boom",
       Event.segment "hello" none (Json.strVal "alice") (Json.strVal "r1")] ∧
    (stepN 5 (initConfig
        [Message.textMsg (some (Json.objVal
            [("participantIdentity", Json.strVal "alice"), ("roomId", Json.strVal "r1")])),
         Message.audio (FeedOutcome.raised "boom")]
        (FlushOutcome.ok ⟨some "hello", none⟩))).phase = Phase.closedDone :=
  ⟨rfl, rfl⟩

/-- C10: the first text frame is always consumed as the handshake,
whatever its content: a first frame `{"type":"stop"}` does not stop the
session but initializes it with sampleRate 16000 and labels `"unknown"`,
creates the recognizer and enters Streaming. -/
theorem c10_first_stop_frame_is_handshake (rest : List Message) (fp : FlushOutcome) :
    (step (initConfig (stopFrame :: rest) fp)).phase = Phase.streaming ∧
    (step (initConfig (stopFrame :: rest) fp)).recognizer = some 16000 ∧
    (step (initConfig (stopFrame :: rest) fp)).participant = Json.strVal "unknown" ∧
    (step (initConfig (stopFrame :: rest) fp)).room = Json.strVal "unknown" ∧
    (step (initConfig (stopFrame :: rest) fp)).msgs = rest ∧
    (step (initConfig (stopFrame :: rest) fp)).events = [] :=
  ⟨rfl, rfl, rfl, rfl, rfl, rfl⟩

/-- C3 counterexample: a handshake whose `sampleRate` is present but
invalid (`"abc"`) is *not* defaulted to 16000 — `int("abc")` raises, the
generic handler emits an error event, no recognizer is ever created and
the session terminates without ever entering Streaming. -/
theorem c3_invalid_sampleRate_not_defaulted :
    (stepN 4 (initConfig
        [Message.textMsg (some (Json.objVal [("sampleRate", Json.strVal "abc")]))]
        flushNone)).phase = Phase.closedDone ∧
    (stepN 4 (initConfig
        [Message.textMsg (some (Json.objVal [("sampleRate", Json.strVal "abc")]))]
        flushNone)).recCreated = false ∧
    (stepN 4 (initConfig
        [Message.textMsg (some (Json.objVal [("sampleRate", Json.strVal "abc")]))]
        flushNone)).events = [Event.errorEv "int conversion error"] ∧
    step (stepN 4 (initConfig
        [Message.textMsg (some (Json.objVal [("sampleRate", Json.strVal "abc")]))]
        flushNone)) =
      stepN 4 (initConfig
        [Message.textMsg (some (Json.objVal [("sampleRate", Json.strVal "abc")]))]
        flushNone) :=
  ⟨rfl, rfl, rfl, rfl⟩

/-- C4 counterexample: an exception raised by the *flush* (`FinalResult`
in the `finally` block) produces no `error` event at all — it escapes the
handler.  Concrete execution: handshake, then stop, engine flush raising
`"boom"`: the session crashes with an empty event list. -/
theorem c4_flush_exception_unreported :
    (stepN 3 (initConfig [hsEmpty, stopFrame] (FlushOutcome.raised "boom"))).phase =
      Phase.crashed "boom" ∧
    (stepN 3 (initConfig [hsEmpty, stopFrame] (FlushOutcome.raised "boom"))).events = [] ∧
    step (stepN 3 (initConfig [hsEmpty, stopFrame] (FlushOutcome.raised "boom"))) =
      stepN 3 (initConfig [hsEmpty, stopFrame] (FlushOutcome.raised "boom")) :=
  ⟨rfl, rfl, rfl⟩

/-- C5 counterexample: a control frame that is *valid* JSON but not an
object (here the array `[]`) is not silently discarded: `data.get("type")`
raises `AttributeError`, an `error` event is produced and the session
terminates. -/
theorem c5_nonobject_json_not_discarded :
    (stepN 5 (initConfig [hsEmpty, Message.textMsg (some (Json.arrVal []))]
        flushNone)).phase = Phase.closedDone ∧
    (stepN 5 (initConfig [hsEmpty, Message.textMsg (some (Json.arrVal []))]
        flushNone)).events = [Event.errorEv "AttributeError: get"] :=
  ⟨rfl, rfl⟩

/-- C2: from any reachable Streaming configuration whose next frame is a
parsed JSON object with a `"stop"` type field, and whose engine flush
returns a result `r` (the claim speaks of "the flushed result"): the loop
is exited into the cleanup, the recognizer is flushed exactly once, the
session reaches Closed within three steps and stays there, and a final
segment carrying the flushed text, its confidence and the session's
labels is delivered iff the flushed text is truthy. -/
theorem c2_stop_flushes_once_and_closes (c : Config) (hreach : Reachable c)
    (j : Json) (rest : List Message) (r : RecResult)
    (hp : c.phase = Phase.streaming)
    (hm : c.msgs = Message.textMsg (some j) :: rest)
    (hstop : isStopJson j = true)
    (hf : c.flushPlan = FlushOutcome.ok r) :
    (step c).phase = Phase.finalizing ∧
    (step (step (step c))).phase = Phase.closedDone ∧
    (step (step (step c))).flushCount = 1 ∧
    (step (step (step c))).closeAttempts = 1 ∧
    step (step (step (step c))) = step (step (step c)) ∧
    (step (step (step c))).events =
      c.events ++
        (if truthy r.text = true then
          [Event.segment (r.text.getD "") r.confidence c.participant c.room]
        else []) := by
  have hinv := sessInv_reachable hreach
  obtain ⟨hsome, halive⟩ := hinv.streamRec hp
  obtain ⟨sr, hrec⟩ := Option.isSome_iff_exists.mp hsome
  have hfc : c.flushCount = 0 := hinv.flushZero (Or.inr (Or.inl hp))
  have hca : c.closeAttempts = 0 :=
    hinv.closeZero (by rw [hp]; exact fun hq => Phase.noConfusion hq)
  obtain ⟨phase, rec, recC, part, room, alive, msgs, events, fc, ca, fp⟩ := c
  dsimp only at hp hm hrec halive hfc hca hf
  subst hp hm hrec halive hfc hca hf
  cases j with
  | objVal fields =>
    have hstop2 : isStopVal (lookupField fields "type") = true := by
      simpa [isStopJson] using hstop
    by_cases ht : truthy r.text = true
    · refine ⟨?_, ?_, ?_, ?_, ?_, ?_⟩ <;>
        simp [step, streamStep, finalizeStep, hstop2, ht]
    · refine ⟨?_, ?_, ?_, ?_, ?_, ?_⟩ <;>
        simp [step, streamStep, finalizeStep, hstop2, ht]
  | nullVal => simp [isStopJson] at hstop
  | boolVal b => simp [isStopJson] at hstop
  | intVal n => simp [isStopJson] at hstop
  | strVal s => simp [isStopJson] at hstop
  | arrVal xs => simp [isStopJson] at hstop

/-- Witness for C2: an empty handshake then a `stop` frame, with the
engine flushing text `"hi"`. -/
theorem c2_stop_witness :
    (step (stepN 1 (initConfig [hsEmpty, stopFrame]
        (FlushOutcome.ok ⟨some "hi", none⟩)))).phase = Phase.finalizing ∧
    (step (step (step (stepN 1 (initConfig [hsEmpty, stopFrame]
        (FlushOutcome.ok ⟨some "hi", none⟩)))))).phase = Phase.closedDone ∧
    (step (step (step (stepN 1 (initConfig [hsEmpty, stopFrame]
        (FlushOutcome.ok ⟨some "hi", none⟩)))))).flushCount = 1 ∧
    (step (step (step (stepN 1 (initConfig [hsEmpty, stopFrame]
        (FlushOutcome.ok ⟨some "hi", none⟩)))))).closeAttempts = 1 ∧
    step (step (step (step (stepN 1 (initConfig [hsEmpty, stopFrame]
        (FlushOutcome.ok ⟨some "hi", none⟩)))))) =
      step (step (step (stepN 1 (initConfig [hsEmpty, stopFrame]
        (FlushOutcome.ok ⟨some "hi", none⟩))))) ∧
    (step (step (step (stepN 1 (initConfig [hsEmpty, stopFrame]
        (FlushOutcome.ok ⟨some "hi", none⟩)))))).events =
      (stepN 1 (initConfig [hsEmpty, stopFrame]
        (FlushOutcome.ok ⟨some "hi", none⟩))).events ++
        (if truthy (some "hi") = true then
          [Event.segment ((some "hi").getD "")
            (none : Option Json)
            (stepN 1 (initConfig [hsEmpty, stopFrame]
              (FlushOutcome.ok ⟨some "hi", none⟩))).participant
            (stepN 1 (initConfig [hsEmpty, stopFrame]
              (FlushOutcome.ok ⟨some "hi", none⟩))).room]
        else []) :=
  c2_stop_flushes_once_and_closes
    (stepN 1 (initConfig [hsEmpty, stopFrame] (FlushOutcome.ok ⟨some "hi", none⟩)))
    ⟨[hsEmpty, stopFrame], FlushOutcome.ok ⟨some "hi", none⟩, 1, rfl⟩
    (Json.objVal [("type", Json.strVal "stop")]) [] ⟨some "hi", none⟩
    rfl rfl rfl rfl

/-- C3 (amended): for every handshake frame that parses to a JSON object,
`sampleRate` defaults to 16000 when absent; a present value is coerced by
`int(...)`, a coercible value configures the recognizer with that rate
and the session enters Streaming with `participantIdentity` and `roomId`
defaulted to `"unknown"` when absent; a *non-coercible* value is not
defaulted: `int` raises, no recognizer is created and the session never
enters Streaming (the labels keep their defaults). -/
theorem c3_handshake_fields (msgs : List Message) (fp : FlushOutcome)
    (fields : List (String × Json)) (rest : List Message)
    (hm : msgs = Message.textMsg (some (Json.objVal fields)) :: rest) :
    (lookupField fields "sampleRate" = none →
      (step (initConfig msgs fp)).phase = Phase.streaming ∧
      (step (initConfig msgs fp)).recognizer = some 16000 ∧
      (step (initConfig msgs fp)).participant =
        (lookupField fields "participantIdentity").getD (Json.strVal "unknown") ∧
      (step (initConfig msgs fp)).room =
        (lookupField fields "roomId").getD (Json.strVal "unknown")) ∧
    (∀ v sr, lookupField fields "sampleRate" = some v → pyToInt v = some sr →
      (step (initConfig msgs fp)).phase = Phase.streaming ∧
      (step (initConfig msgs fp)).recognizer = some sr ∧
      (step (initConfig msgs fp)).participant =
        (lookupField fields "participantIdentity").getD (Json.strVal "unknown") ∧
      (step (initConfig msgs fp)).room =
        (lookupField fields "roomId").getD (Json.strVal "unknown")) ∧
    (∀ v, lookupField fields "sampleRate" = some v → pyToInt v = none →
      (step (initConfig msgs fp)).phase = Phase.excHandling "int conversion error" ∧
      (step (initConfig msgs fp)).recognizer = none ∧
      (step (initConfig msgs fp)).recCreated = false ∧
      (step (initConfig msgs fp)).participant = Json.strVal "unknown") := by
  subst hm
  refine ⟨?_, ?_, ?_⟩
  · intro h0
    simp [step, handshakeStep, initConfig, h0, pyToInt]
  · intro v sr h1 h2
    simp [step, handshakeStep, initConfig, h1, h2]
  · intro v h1 h2
    simp [step, handshakeStep, initConfig, h1, h2]

/-- Witness for C3 (amended): handshake with the coercible string
`"22050"` as sample rate. -/
theorem c3_handshake_witness :
    (step (initConfig
        [Message.textMsg (some (Json.objVal [("sampleRate", Json.strVal "22050")]))]
        flushNone)).phase = Phase.streaming ∧
    (step (initConfig
        [Message.textMsg (some (Json.objVal [("sampleRate", Json.strVal "22050")]))]
        flushNone)).recognizer = some 22050 ∧
    (step (initConfig
        [Message.textMsg (some (Json.objVal [("sampleRate", Json.strVal "22050")]))]
        flushNone)).participant =
      (lookupField [("sampleRate", Json.strVal "22050")] "participantIdentity").getD
        (Json.strVal "unknown") ∧
    (step (initConfig
        [Message.textMsg (some (Json.objVal [("sampleRate", Json.strVal "22050")]))]
        flushNone)).room =
      (lookupField [("sampleRate", Json.strVal "22050")] "roomId").getD
        (Json.strVal "unknown") :=
  (c3_handshake_fields _ flushNone [("sampleRate", Json.strVal "22050")] [] rfl).2.1
    (Json.strVal "22050") 22050 rfl rfl

/-- C4 (amended): any exception raised by the recognizer's *feed* during
Streaming makes the session send one best-effort `error` event and
proceed to cleanup, and every reachable configuration has delivered at
most one `error` event; an exception from the *flush* during cleanup,
however, escapes the handler with no `error` event (see the
counterexample). -/
theorem c4_feed_exception_error_event (c : Config) (hreach : Reachable c)
    (msg : String) (rest : List Message) :
    (c.phase = Phase.streaming →
      c.msgs = Message.audio (FeedOutcome.raised msg) :: rest →
      (step c).phase = Phase.excHandling msg ∧
      (step (step c)).phase = Phase.finalizing ∧
      (step (step c)).events = c.events ++ [Event.errorEv msg]) ∧
    errCount c.events ≤ 1 := by
  have hinv := sessInv_reachable hreach
  refine ⟨?_, hinv.errLe⟩
  intro hp hm
  obtain ⟨hsome, halive⟩ := hinv.streamRec hp
  obtain ⟨sr, hrec⟩ := Option.isSome_iff_exists.mp hsome
  obtain ⟨phase, rec, recC, part, room, alive, msgs, events, fc, ca, fp⟩ := c
  dsimp only at hp hm hrec halive
  subst hp hm hrec halive
  exact ⟨rfl, rfl, rfl⟩

/-- Witness for C4 (amended): a session whose second frame is an audio
chunk on which feed raises `"boom"`. -/
theorem c4_feed_exception_witness :
    ((step (stepN 1 (initConfig [hsEmpty, Message.audio (FeedOutcome.raised "boom")]
        flushNone))).phase = Phase.excHandling "boom" ∧
     (step (step (stepN 1 (initConfig [hsEmpty, Message.audio (FeedOutcome.raised "boom")]
        flushNone)))).phase = Phase.finalizing ∧
     (step (step (stepN 1 (initConfig [hsEmpty, Message.audio (FeedOutcome.raised "boom")]
        flushNone)))).events =
       (stepN 1 (initConfig [hsEmpty, Message.audio (FeedOutcome.raised "boom")]
        flushNone)).events ++ [Event.errorEv "boom"]) ∧
    errCount (stepN 1 (initConfig [hsEmpty, Message.audio (FeedOutcome.raised "boom")]
        flushNone)).events ≤ 1 :=
  ⟨(c4_feed_exception_error_event
      (stepN 1 (initConfig [hsEmpty, Message.audio (FeedOutcome.raised "boom")] flushNone))
      ⟨[hsEmpty, Message.audio (FeedOutcome.raised "boom")], flushNone, 1, rfl⟩
      "boom" []).1 rfl rfl,
   (c4_feed_exception_error_event
      (stepN 1 (initConfig [hsEmpty, Message.audio (FeedOutcome.raised "boom")] flushNone))
      ⟨[hsEmpty, Message.audio (FeedOutcome.raised "boom")], flushNone, 1, rfl⟩
      "boom" []).2⟩

/-- C5 (amended): during Streaming, a text frame whose payload fails JSON
parsing is silently discarded (the session stays in Streaming, no event
is produced), and so is a frame parsing to a JSON *object* whose `type`
field is absent or not `"stop"`; a frame parsing to valid non-object JSON
instead raises and terminates the session (see the counterexample). -/
theorem c5_discard_malformed_and_nonstop (c : Config) (rest : List Message)
    (hp : c.phase = Phase.streaming) :
    (c.msgs = Message.textMsg none :: rest → step c = { c with msgs := rest }) ∧
    (∀ fields, c.msgs = Message.textMsg (some (Json.objVal fields)) :: rest →
      isStopVal (lookupField fields "type") = false →
      step c = { c with msgs := rest }) := by
  obtain ⟨phase, rec, recC, part, room, alive, msgs, events, fc, ca, fp⟩ := c
  dsimp only at hp
  subst hp
  constructor
  · intro hm
    dsimp only at hm
    subst hm
    rfl
  · intro fields hm hns
    dsimp only at hm
    subst hm
    simp [step, streamStep, hns]

/-- Witness for C5 (amended): a malformed frame and a `{"type":"ping"}`
frame are both dropped while Streaming continues. -/
theorem c5_discard_witness :
    step (stepN 1 (initConfig [hsEmpty, Message.textMsg none] flushNone)) =
      { stepN 1 (initConfig [hsEmpty, Message.textMsg none] flushNone) with
          msgs := ([] : List Message) } ∧
    step (stepN 1 (initConfig
        [hsEmpty, Message.textMsg (some (Json.objVal [("type", Json.strVal "ping")]))]
        flushNone)) =
      { stepN 1 (initConfig
          [hsEmpty, Message.textMsg (some (Json.objVal [("type", Json.strVal "ping")]))]
          flushNone) with
          msgs := ([] : List Message) } :=
  ⟨(c5_discard_malformed_and_nonstop
      (stepN 1 (initConfig [hsEmpty, Message.textMsg none] flushNone)) [] rfl).1 rfl,
   (c5_discard_malformed_and_nonstop
      (stepN 1 (initConfig
        [hsEmpty, Message.textMsg (some (Json.objVal [("type", Json.strVal "ping")]))]
        flushNone)) [] rfl).2 [("type", Json.strVal "ping")] rfl rfl⟩

/-- C6: an audio chunk that does not complete an utterance (feed returns
an interim hypothesis) never produces a segment event and produces
exactly one partial event iff the interim text is truthy; a chunk that
completes an utterance produces exactly one segment event iff the final
text is truthy, and no partial event.  Both are captured by the exact
step equation on the event list. -/
theorem c6_audio_chunk_events (c : Config) (rest : List Message)
    (hp : c.phase = Phase.streaming) :
    (∀ p, c.msgs = Message.audio (FeedOutcome.interim p) :: rest →
      step c = { c with
        msgs := rest,
        events := c.events ++
          (if truthy p = true then [Event.interimEv (p.getD "") c.participant c.room]
           else []) }) ∧
    (∀ r, c.msgs = Message.audio (FeedOutcome.finalStep r) :: rest →
      step c = { c with
        msgs := rest,
        events := c.events ++
          (if truthy r.text = true then
            [Event.segment (r.text.getD "") r.confidence c.participant c.room]
           else []) }) := by
  obtain ⟨phase, rec, recC, part, room, alive, msgs, events, fc, ca, fp⟩ := c
  dsimp only at hp
  subst hp
  constructor
  · intro p hm
    dsimp only at hm
    subst hm
    by_cases htp : truthy p = true <;> simp [step, streamStep, htp]
  · intro r hm
    dsimp only at hm
    subst hm
    by_cases htr : truthy r.text = true <;> simp [step, streamStep, htr]

/-- Witness for C6: an interim chunk with text `"hel"` appends exactly
one partial event. -/
theorem c6_audio_chunk_witness :
    step (stepN 1 (initConfig
        [hsEmpty, Message.audio (FeedOutcome.interim (some "hel"))] flushNone)) =
      { stepN 1 (initConfig
          [hsEmpty, Message.audio (FeedOutcome.interim (some "hel"))] flushNone) with
          msgs := ([] : List Message),
          events :=
            (stepN 1 (initConfig
              [hsEmpty, Message.audio (FeedOutcome.interim (some "hel"))] flushNone)).events ++
            (if truthy (some "hel") = true then
              [Event.interimEv ((some "hel").getD "")
                (stepN 1 (initConfig
                  [hsEmpty, Message.audio (FeedOutcome.interim (some "hel"))]
                  flushNone)).participant
                (stepN 1 (initConfig
                  [hsEmpty, Message.audio (FeedOutcome.interim (some "hel"))]
                  flushNone)).room]
             else []) } :=
  (c6_audio_chunk_events
    (stepN 1 (initConfig [hsEmpty, Message.audio (FeedOutcome.interim (some "hel"))]
      flushNone)) [] rfl).1 (some "hel") rfl

/-- After any step the recognizer field is either unchanged or dropped,
except that the handshake step (from `awaitingInit`) may create it. -/
theorem step_recognizer_cases (c : Config) :
    (step c).recognizer = c.recognizer ∨ (step c).recognizer = none ∨
      c.phase = Phase.awaitingInit := by
  obtain ⟨phase, rec, recC, part, room, alive, msgs, events, fc, ca, fp⟩ := c
  cases phase with
  | awaitingInit => exact Or.inr (Or.inr rfl)
  | streaming =>
    cases msgs with
    | nil => exact Or.inl rfl
    | cons m rest =>
      cases m with
      | disconnect => exact Or.inl rfl
      | other => exact Or.inl rfl
      | textMsg o =>
        cases o with
        | none => exact Or.inl rfl
        | some j =>
          cases j with
          | objVal fields =>
            simp only [step, streamStep]
            by_cases hstop : isStopVal (lookupField fields "type") = true
            · rw [if_pos hstop]; exact Or.inl rfl
            · rw [if_neg hstop]; exact Or.inl rfl
          | nullVal => exact Or.inl rfl
          | boolVal b => exact Or.inl rfl
          | intVal n => exact Or.inl rfl
          | strVal s => exact Or.inl rfl
          | arrVal xs => exact Or.inl rfl
      | audio out =>
        cases out with
        | raised msg => exact Or.inl rfl
        | finalStep r =>
          simp only [step, streamStep]
          by_cases ht : truthy r.text = true
          · rw [if_pos ht]; exact Or.inl rfl
          · rw [if_neg ht]; exact Or.inl rfl
        | interim p =>
          simp only [step, streamStep]
          by_cases ht : truthy p = true
          · rw [if_pos ht]; exact Or.inl rfl
          · rw [if_neg ht]; exact Or.inl rfl
  | excHandling s =>
    cases alive with
    | true => exact Or.inl rfl
    | false => exact Or.inl rfl
  | finalizing =>
    cases rec with
    | none => exact Or.inl rfl
    | some sr =>
      cases fp with
      | raised s => exact Or.inr (Or.inl rfl)
      | ok r =>
        simp only [step, finalizeStep]
        by_cases ht : truthy r.text = true
        · rw [if_pos ht]
          cases alive with
          | true => exact Or.inr (Or.inl rfl)
          | false => exact Or.inr (Or.inl rfl)
        · rw [if_neg ht]; exact Or.inr (Or.inl rfl)
  | closing => exact Or.inl rfl
  | closedDone => exact Or.inl rfl
  | crashed s => exact Or.inl rfl

/-- C7: in every reachable configuration the recognizer handle exists iff
the spec state is Streaming or Terminating; before the handshake there is
no handle; a handle present after a step was already present before it
unless that step was the handshake (so a second handle is never created);
and a session whose recognizer was never created has performed no flush
and emitted no segment event. -/
theorem c7_handle_iff_states (c : Config) (hreach : Reachable c) :
    (c.recognizer.isSome = true ↔
      (specState c = SpecState.streamingS ∨ specState c = SpecState.terminatingS)) ∧
    (c.phase = Phase.awaitingInit → c.recognizer = none) ∧
    ((step c).recognizer.isSome = true →
      c.recognizer.isSome = true ∨ c.phase = Phase.awaitingInit) ∧
    (c.recCreated = false →
      c.flushCount = 0 ∧ segCount c.events = 0 ∧ c.recognizer = none) := by
  have hinv := sessInv_reachable hreach
  refine ⟨⟨?_, ?_⟩, fun hq => (hinv.awaitRec hq).1, ?_,
    fun hq => ⟨(hinv.ghostNone hq).2.1, (hinv.ghostNone hq).2.2, (hinv.ghostNone hq).1⟩⟩
  · intro hsome
    cases hph : c.phase with
    | awaitingInit =>
      rw [(hinv.awaitRec hph).1] at hsome; exact Bool.noConfusion hsome
    | streaming => left; simp [specState, hph]
    | excHandling s => right; simp [specState, hph, hsome]
    | finalizing => right; simp [specState, hph, hsome]
    | closing =>
      rw [hinv.closedRec (Or.inl hph)] at hsome; exact Bool.noConfusion hsome
    | closedDone =>
      rw [hinv.closedRec (Or.inr (Or.inl hph))] at hsome; exact Bool.noConfusion hsome
    | crashed s =>
      rw [hinv.closedRec (Or.inr (Or.inr ⟨s, hph⟩))] at hsome; exact Bool.noConfusion hsome
  · intro hor
    cases hph : c.phase with
    | awaitingInit => simp [specState, hph] at hor
    | streaming => exact (hinv.streamRec hph).1
    | excHandling s =>
      by_cases hs : c.recognizer.isSome = true
      · exact hs
      · simp [specState, hph, hs] at hor
    | finalizing =>
      by_cases hs : c.recognizer.isSome = true
      · exact hs
      · simp [specState, hph, hs] at hor
    | closing => simp [specState, hph] at hor
    | closedDone => simp [specState, hph] at hor
    | crashed s => simp [specState, hph] at hor
  · intro hq
    rcases step_recognizer_cases c with he | he | he
    · rw [he] at hq; exact Or.inl hq
    · rw [he] at hq; exact Bool.noConfusion hq
    · exact Or.inr he

/-- Witness for C7: the configuration after handshake and stop (in the
Terminating flush position, recognizer live). -/
theorem c7_handle_witness :
    ((stepN 2 (initConfig [hsEmpty, stopFrame] flushNone)).recognizer.isSome = true ↔
      (specState (stepN 2 (initConfig [hsEmpty, stopFrame] flushNone)) =
          SpecState.streamingS ∨
        specState (stepN 2 (initConfig [hsEmpty, stopFrame] flushNone)) =
          SpecState.terminatingS)) ∧
    ((stepN 2 (initConfig [hsEmpty, stopFrame] flushNone)).phase = Phase.awaitingInit →
      (stepN 2 (initConfig [hsEmpty, stopFrame] flushNone)).recognizer = none) ∧
    ((step (stepN 2 (initConfig [hsEmpty, stopFrame] flushNone))).recognizer.isSome = true →
      (stepN 2 (initConfig [hsEmpty, stopFrame] flushNone)).recognizer.isSome = true ∨
      (stepN 2 (initConfig [hsEmpty, stopFrame] flushNone)).phase = Phase.awaitingInit) ∧
    ((stepN 2 (initConfig [hsEmpty, stopFrame] flushNone)).recCreated = false →
      (stepN 2 (initConfig [hsEmpty, stopFrame] flushNone)).flushCount = 0 ∧
      segCount (stepN 2 (initConfig [hsEmpty, stopFrame] flushNone)).events = 0 ∧
      (stepN 2 (initConfig [hsEmpty, stopFrame] flushNone)).recognizer = none) :=
  c7_handle_iff_states (stepN 2 (initConfig [hsEmpty, stopFrame] flushNone))
    ⟨[hsEmpty, stopFrame], flushNone, 2, rfl⟩

/-- C8: a `stop` frame received while Streaming flushes the recognizer
exactly once and attempts at most one close, the resulting configuration
is terminal (no further flush or close can happen), and the observable
outcome does not depend on what follows the `stop` frame in the input —
in particular a second `stop` frame is a no-op. -/
theorem c8_second_stop_noop (c : Config) (hreach : Reachable c)
    (j : Json) (rest rest2 : List Message)
    (hp : c.phase = Phase.streaming)
    (hm : c.msgs = Message.textMsg (some j) :: rest)
    (hstop : isStopJson j = true) :
    (step (step (step c))).flushCount = 1 ∧
    (step (step (step c))).closeAttempts ≤ 1 ∧
    step (step (step (step c))) = step (step (step c)) ∧
    obs (step (step (step { c with msgs := Message.textMsg (some j) :: rest2 }))) =
      obs (step (step (step c))) := by
  have hinv := sessInv_reachable hreach
  obtain ⟨hsome, halive⟩ := hinv.streamRec hp
  obtain ⟨sr, hrec⟩ := Option.isSome_iff_exists.mp hsome
  have hfc : c.flushCount = 0 := hinv.flushZero (Or.inr (Or.inl hp))
  have hca : c.closeAttempts = 0 :=
    hinv.closeZero (by rw [hp]; exact fun hq => Phase.noConfusion hq)
  obtain ⟨phase, rec, recC, part, room, alive, msgs, events, fc, ca, fp⟩ := c
  dsimp only at hp hm hrec halive hfc hca
  subst hp hm hrec halive hfc hca
  cases j with
  | objVal fields =>
    have hstop2 : isStopVal (lookupField fields "type") = true := by
      simpa [isStopJson] using hstop
    cases fp with
    | raised s =>
      refine ⟨?_, ?_, ?_, ?_⟩ <;>
        simp [step, streamStep, finalizeStep, obs, hstop2]
    | ok r =>
      by_cases ht : truthy r.text = true
      · refine ⟨?_, ?_, ?_, ?_⟩ <;>
          simp [step, streamStep, finalizeStep, obs, hstop2, ht]
      · refine ⟨?_, ?_, ?_, ?_⟩ <;>
          simp [step, streamStep, finalizeStep, obs, hstop2, ht]
  | nullVal => simp [isStopJson] at hstop
  | boolVal b => simp [isStopJson] at hstop
  | intVal n => simp [isStopJson] at hstop
  | strVal s => simp [isStopJson] at hstop
  | arrVal xs => simp [isStopJson] at hstop

/-- Witness for C8: a session receiving `stop` twice — the outcome equals
the single-stop outcome, with one flush and one close. -/
theorem c8_second_stop_witness :
    (step (step (step (stepN 1 (initConfig [hsEmpty, stopFrame, stopFrame]
        flushNone))))).flushCount = 1 ∧
    (step (step (step (stepN 1 (initConfig [hsEmpty, stopFrame, stopFrame]
        flushNone))))).closeAttempts ≤ 1 ∧
    step (step (step (step (stepN 1 (initConfig [hsEmpty, stopFrame, stopFrame]
        flushNone))))) =
      step (step (step (stepN 1 (initConfig [hsEmpty, stopFrame, stopFrame]
        flushNone)))) ∧
    obs (step (step (step { stepN 1 (initConfig [hsEmpty, stopFrame, stopFrame]
        flushNone) with
          msgs := Message.textMsg (some (Json.objVal [("type", Json.strVal "stop")])) ::
            ([] : List Message) }))) =
      obs (step (step (step (stepN 1 (initConfig [hsEmpty, stopFrame, stopFrame]
        flushNone))))) :=
  c8_second_stop_noop
    (stepN 1 (initConfig [hsEmpty, stopFrame, stopFrame] flushNone))
    ⟨[hsEmpty, stopFrame, stopFrame], flushNone, 1, rfl⟩
    (Json.objVal [("type", Json.strVal "stop")]) [stopFrame] []
    rfl rfl rfl
